import Mathlib

/-!
Shallow embedding of the live audio session engine of this repository:
class `GeminiLiveService` in `src/services/geminiLiveService.ts`, together
with the configuration constants of `src/types.ts`.

Modelling conventions:
* Nullable object-valued fields of the class (audio contexts, gain/analyser
  nodes, microphone stream, processor, session promise) are modelled by `Bool`
  flags recording whether the field is currently non-null.
* Times on the output audio clock (`AudioContext.currentTime`,
  `nextStartTime`, buffer durations) are rationals, in seconds.
* Binary payloads are `List Nat` byte sequences.  An encoded transport chunk
  is identified with the byte sequence it encodes, since the text encoding is
  specified to round-trip exactly.
* External effects of an operation (sources stopped, buffers scheduled,
  transcript turns emitted through `onTranscript`) are returned alongside the
  successor state.
* `AudioBufferSourceNode`s created by `queueAudioOutput` are identified by a
  running `Nat` id threaded through the functions that create them.
-/

namespace GeminiLive

/-- Shape of the `AUDIO_CONFIG` constant of `src/types.ts`. -/
structure AudioConfigShape where
  INPUT_SAMPLE_RATE : ℚ
  OUTPUT_SAMPLE_RATE : ℚ
  BUFFER_SIZE : Nat
deriving Repr, DecidableEq

/-- `AUDIO_CONFIG` from `src/types.ts`. -/
def AUDIO_CONFIG : AudioConfigShape :=
  { INPUT_SAMPLE_RATE := 16000, OUTPUT_SAMPLE_RATE := 24000, BUFFER_SIZE := 4096 }

/-- One decoded, scheduled output buffer: the `AudioBufferSourceNode` created by
`queueAudioOutput`, identified by `sourceId`, with the start time that was
passed to `source.start` and the decoded buffer's duration in seconds. -/
structure ScheduledBuffer where
  sourceId : Nat
  startTime : ℚ
  duration : ℚ
deriving Repr, DecidableEq

/-- The mutable fields of class `GeminiLiveService`
(`src/services/geminiLiveService.ts`, lines 6-24).  Object-valued fields are
`Bool` flags for being non-null; `scheduledSources` holds the ids of the
sources currently in the `Set`. -/
structure ServiceState where
  sessionPromise : Bool
  audioContext : Bool
  inputAudioContext : Bool
  inputSource : Bool
  processor : Bool
  stream : Bool
  nextStartTime : ℚ
  scheduledSources : List Nat
  outputGain : Bool
  outputAnalyser : Bool
  currentInputTranscription : String
  currentOutputTranscription : String
  isConnected : Bool
deriving Repr, DecidableEq

/-- `getOutputAnalyser` (lines 30-32): returns the analyser field; `true`
models a non-null `AnalyserNode`, `false` models `null`. -/
def getOutputAnalyser (s : ServiceState) : Bool :=
  s.outputAnalyser

/-- Modelled from the spec: `decodeAudioData` is imported from
`src/utils/audioUtils.ts`, which is not among the sources.  Per spec §4.1 it
interprets the payload as raw little-endian 16-bit mono PCM at the given
sample rate, fails with `DecodeError` on a truncated (odd-length) payload, and
produces a zero-length buffer on empty input.  The decoded buffer is modelled
by its duration in seconds, `sampleCount / sampleRate`. -/
def decodeAudioData (bytes : List Nat) (sampleRate : ℚ) : Option ℚ :=
  if bytes.length % 2 = 0 then
    some (((bytes.length / 2 : ℕ) : ℚ) / sampleRate)
  else
    none

/-- Duration of a successfully decoded output payload at the output rate. -/
def chunkDuration (bytes : List Nat) : ℚ :=
  ((bytes.length / 2 : ℕ) : ℚ) / AUDIO_CONFIG.OUTPUT_SAMPLE_RATE

/-- `queueAudioOutput` (lines 205-233).  `now` is the value of
`this.audioContext.currentTime` read at line 212, `srcId` the id of the
`AudioBufferSourceNode` that would be created.  Returns the successor state
and the buffer scheduled by `source.start`, if any; a decode failure is
caught, logged and skipped (lines 230-232), leaving the state unchanged. -/
def queueAudioOutput (s : ServiceState) (now : ℚ) (bytes : List Nat) (srcId : Nat) :
    ServiceState × Option ScheduledBuffer :=
  if s.audioContext = false ∨ s.outputGain = false then (s, none)
  else
    match decodeAudioData bytes AUDIO_CONFIG.OUTPUT_SAMPLE_RATE with
    | none => (s, none)
    | some dur =>
      let start := if s.nextStartTime < now then now else s.nextStartTime
      ({ s with
          nextStartTime := start + dur,
          scheduledSources := s.scheduledSources ++ [srcId] },
       some { sourceId := srcId, startTime := start, duration := dur })

/-- A sequence of arriving remote audio payloads fed one by one through
`queueAudioOutput`, each paired with the sink time `now` observed at its
enqueue.  Source ids are handed out consecutively from `idStart`; a payload
that is skipped creates no source and consumes no id. -/
def queueAudioSeq : ServiceState → Nat → List (ℚ × List Nat) →
    ServiceState × List ScheduledBuffer
  | s, _, [] => (s, [])
  | s, idStart, (now, bytes) :: rest =>
    match queueAudioOutput s now bytes idStart with
    | (s1, some b) =>
      let t := queueAudioSeq s1 (idStart + 1) rest
      (t.1, b :: t.2)
    | (s1, none) => queueAudioSeq s1 idStart rest

/-- `stopAllScheduledAudio` (lines 235-245): stop every scheduled source,
clear the set, and if the output context exists reset the cursor to its
current time `now`.  Returns the successor state and the ids stopped. -/
def stopAllScheduledAudio (s : ServiceState) (now : ℚ) :
    ServiceState × List Nat :=
  let stopped := s.scheduledSources
  let s1 : ServiceState := { s with scheduledSources := [] }
  let s2 : ServiceState :=
    if s1.audioContext = true then { s1 with nextStartTime := now } else s1
  (s2, stopped)

/-- `cleanup` (lines 266-308): best-effort release of every resource.  The
transcription accumulators are not touched by `cleanup` (they are reset at the
start of `connect`). -/
def cleanup (s : ServiceState) : ServiceState :=
  { s with
      isConnected := false,
      stream := false,
      processor := false,
      inputSource := false,
      inputAudioContext := false,
      audioContext := false,
      scheduledSources := [],
      nextStartTime := 0,
      outputAnalyser := false,
      outputGain := false,
      sessionPromise := false }

/-- `disconnect` (lines 247-264): mark the session inactive, close the remote
session if one resolved (an external effect with no further local state
change), then run `cleanup`. -/
def disconnect (s : ServiceState) : ServiceState :=
  cleanup { s with isConnected := false }

/-- The speaker role tag passed to the `onTranscript` callback. -/
inductive Role
  | user
  | model
deriving Repr, DecidableEq

/-- `part.inlineData` of a model-turn part: a mime type and the bytes the
base64 `data` field encodes. -/
structure InlineData where
  mimeType : String
  data : List Nat
deriving Repr, DecidableEq

/-- One element of `serverContent.modelTurn.parts`. -/
structure ModelTurnPart where
  inlineData : Option InlineData
deriving Repr, DecidableEq

/-- The fields of `message.serverContent` read by `handleMessage`
(lines 164-203).  `modelTurnParts` is `none` when `modelTurn` or its `parts`
field is absent. -/
structure ServerContent where
  interrupted : Bool
  modelTurnParts : Option (List ModelTurnPart)
  inputTranscriptionText : Option String
  outputTranscriptionText : Option String
  turnComplete : Bool
deriving Repr, DecidableEq

/-- A `LiveServerMessage` as consumed by `handleMessage`. -/
structure LiveServerMessage where
  serverContent : Option ServerContent
deriving Repr, DecidableEq

/-- The external effects of handling one inbound message: sources stopped by
an interruption, buffers scheduled from audio parts, and the
`(text, role)` arguments of the `onTranscript` invocations, in order. -/
structure HandleEffects where
  stopped : List Nat
  scheduled : List ScheduledBuffer
  transcripts : List (String × Role)
deriving Repr, DecidableEq

/-- The audio payloads selected by the model-turn loop (lines 174-181): the
`inlineData` bytes of every part whose mime type starts with `audio/pcm`,
in part order. -/
def audioPayloads (parts : Option (List ModelTurnPart)) : List (List Nat) :=
  (parts.getD []).filterMap fun p =>
    match p.inlineData with
    | some d => if d.mimeType.startsWith "audio/pcm" then some d.data else none
    | none => none

/-- The transcription-accumulation statements (lines 183-190): append a
present, non-empty input fragment to the input accumulator, then likewise for
the output fragment (an absent or empty `text` field is falsy in the source
and appends nothing). -/
def appendTranscriptions (s : ServiceState)
    (inputText outputText : Option String) : ServiceState :=
  let s1 :=
    match inputText with
    | some t =>
      if t ≠ "" then
        { s with currentInputTranscription := s.currentInputTranscription ++ t }
      else s
    | none => s
  match outputText with
  | some t =>
    if t ≠ "" then
      { s1 with currentOutputTranscription := s1.currentOutputTranscription ++ t }
    else s1
  | none => s1

/-- The `String.prototype.trim()` call of the source (lines 194, 198): remove
leading and trailing whitespace characters.  Modelled directly over the
character list. -/
def jsTrim (s : String) : String :=
  ⟨((s.data.dropWhile Char.isWhitespace).reverse.dropWhile
      Char.isWhitespace).reverse⟩

/-- The turn-dispatch statements (lines 192-202): when the message carries
`turnComplete`, emit the full input accumulator as a `user` turn if it is
non-blank after trimming and clear it, then likewise emit the output
accumulator as a `model` turn.  A blank accumulator emits nothing and is left
as it is. -/
def flushTurns (s : ServiceState) (turnComplete : Bool) :
    ServiceState × List (String × Role) :=
  if turnComplete = true then
    let r1 : ServiceState × List (String × Role) :=
      if jsTrim s.currentInputTranscription ≠ "" then
        ({ s with currentInputTranscription := "" },
         [(s.currentInputTranscription, Role.user)])
      else (s, [])
    if jsTrim r1.1.currentOutputTranscription ≠ "" then
      ({ r1.1 with currentOutputTranscription := "" },
       r1.2 ++ [(r1.1.currentOutputTranscription, Role.model)])
    else r1
  else (s, [])

/-- `handleMessage` (lines 164-203).  A message whose `serverContent` carries
`interrupted` stops all scheduled audio, clears the output accumulator and
returns early; otherwise the audio parts are enqueued, the transcription
fragments appended, and a `turnComplete` flag flushes the accumulators.
`now` is the sink time observed while the message is handled and `idStart`
the next fresh source id. -/
def handleMessage (s : ServiceState) (now : ℚ) (msg : LiveServerMessage)
    (idStart : Nat) : ServiceState × HandleEffects :=
  match msg.serverContent with
  | none => (s, { stopped := [], scheduled := [], transcripts := [] })
  | some sc =>
    if sc.interrupted = true then
      let r := stopAllScheduledAudio s now
      ({ r.1 with currentOutputTranscription := "" },
       { stopped := r.2, scheduled := [], transcripts := [] })
    else
      let a := queueAudioSeq s idStart
        ((audioPayloads sc.modelTurnParts).map fun b => (now, b))
      let s4 := appendTranscriptions a.1
        sc.inputTranscriptionText sc.outputTranscriptionText
      let f := flushTurns s4 sc.turnComplete
      (f.1, { stopped := [], scheduled := a.2, transcripts := f.2 })

/-- A `ServerContent` that carries only a turn-complete flag. -/
def turnSignalOnly (b : Bool) : ServerContent :=
  { interrupted := false, modelTurnParts := none,
    inputTranscriptionText := none, outputTranscriptionText := none,
    turnComplete := b }

/-- Modelled from the spec: `float32ToInt16` is imported from
`src/utils/audioUtils.ts`, which is not among the sources.  Per spec §4.1 it
scales and rounds each sample to a 16-bit signed integer, clamping
out-of-range input rather than wrapping. -/
def float32ToInt16 (samples : List ℚ) : List Int :=
  samples.map fun x => max (-32768) (min 32767 (Rat.floor (x * 32767 + 1 / 2)))

/-- Modelled from the spec: `encodeBase64` is imported from
`src/utils/audioUtils.ts`, which is not among the sources.  Spec §4.1 requires
the text encoding to round-trip exactly, so an encoded chunk is fully
determined by the frame it encodes and is represented by that frame. -/
def encodeBase64 (frame : List Int) : List Int :=
  frame

/-- The outbound `media` argument of `session.sendRealtimeInput`
(lines 148-153). -/
structure OutboundChunk where
  mimeType : String
  data : List Int
deriving Repr, DecidableEq

/-- The `onaudioprocess` handler installed by `startAudioInput`
(lines 137-158) applied to one capture frame.  `connAtProduce` and
`hasSession` are `this.isConnected` and `this.sessionPromise !== null` when
the frame arrives; `sessionResolves` records whether the session promise
resolves (a rejection is silently caught); `connAtSend` is `this.isConnected`
re-read inside the `then` continuation.  Returns the chunk encoded by the
handler, if any, and the chunk actually transmitted, if any. -/
def processCaptureFrame (connAtProduce hasSession sessionResolves connAtSend : Bool)
    (frame : List ℚ) : Option OutboundChunk × Option OutboundChunk :=
  if connAtProduce = false ∨ hasSession = false then (none, none)
  else
    let chunk : OutboundChunk :=
      { mimeType := "audio/pcm;rate=16000",
        data := encodeBase64 (float32ToInt16 frame) }
    (some chunk,
     if sessionResolves = true ∧ connAtSend = true then some chunk else none)

/-- The two asynchronous channels that can report a failed connection attempt:
the transport's `onerror` callback (lines 100-105) and the rejection handler
attached to the connection promise (lines 110-116). -/
inductive ConnectFailureEvent
  | errorCallback
  | promiseRejected
deriving Repr, DecidableEq

/-- Observation counters for a connection-failure scenario: how often the
`onError` notification and the `cleanup` routine have run. -/
structure FailureObs where
  onErrorCount : Nat
  cleanupCount : Nat
deriving Repr, DecidableEq

/-- One failure-delivery event applied to the service state.  The `onerror`
callback unconditionally clears `isConnected`, notifies `onError` and runs
`cleanup`; the promise-rejection handler does so only while
`this.inputAudioContext` is still non-null (line 111). -/
def connectFailureStep (st : ServiceState × FailureObs)
    (e : ConnectFailureEvent) : ServiceState × FailureObs :=
  match e with
  | .errorCallback =>
    (cleanup { st.1 with isConnected := false },
     { onErrorCount := st.2.onErrorCount + 1,
       cleanupCount := st.2.cleanupCount + 1 })
  | .promiseRejected =>
    if st.1.inputAudioContext = true then
      (cleanup st.1,
       { onErrorCount := st.2.onErrorCount + 1,
         cleanupCount := st.2.cleanupCount + 1 })
    else st

/-- A connection-failure scenario: the delivery events in the order the event
loop runs them. -/
def connectFailureRun (st : ServiceState × FailureObs)
    (events : List ConnectFailureEvent) : ServiceState × FailureObs :=
  events.foldl connectFailureStep st

/-- The start times a gapless scheduler assigns from cursor `c` to buffers of
the given durations: each buffer starts where the previous one ends. -/
def startsFrom : ℚ → List ℚ → List ℚ
  | _, [] => []
  | c, d :: ds => c :: startsFrom (c + d) ds

/-- No starvation along a delivery: with cursor `c`, each arriving payload's
observed sink time is at most the cursor, which then advances by the payload's
duration. -/
def noStarvation : ℚ → List (ℚ × ℚ) → Bool
  | _, [] => true
  | c, p :: rest => (decide (p.1 ≤ c)) && noStarvation (c + p.2) rest

/-- The all-null initial state of a freshly constructed `GeminiLiveService`. -/
def baseState : ServiceState :=
  { sessionPromise := false, audioContext := false, inputAudioContext := false,
    inputSource := false, processor := false, stream := false,
    nextStartTime := 0, scheduledSources := [], outputGain := false,
    outputAnalyser := false, currentInputTranscription := "",
    currentOutputTranscription := "", isConnected := false }

/-- The state right after the setup steps of `connect` (lines 49-66) have
succeeded: both contexts, the output nodes, the microphone stream and the
session promise exist. -/
def postSetupState : ServiceState :=
  { sessionPromise := true, audioContext := true, inputAudioContext := true,
    inputSource := false, processor := false, stream := true,
    nextStartTime := 0, scheduledSources := [], outputGain := true,
    outputAnalyser := true, currentInputTranscription := "",
    currentOutputTranscription := "", isConnected := false }

/-- An active session whose output pipeline exists and whose cursor sits at
one second. -/
def activeOutputState : ServiceState :=
  { postSetupState with isConnected := true, nextStartTime := 1 }

/-- A state holding a whitespace-only accumulated input transcription. -/
def wsState : ServiceState :=
  { baseState with currentInputTranscription := "   " }

/-- A state holding the accumulated input transcription `"Hello"`. -/
def helloState : ServiceState :=
  { baseState with currentInputTranscription := "Hello" }

/-- A `ServerContent` carrying both an interruption signal and a turn-complete
signal in the same message. -/
def intAndTurnContent : ServerContent :=
  { interrupted := true, modelTurnParts := none,
    inputTranscriptionText := none, outputTranscriptionText := none,
    turnComplete := true }

/-- An active session with two sources pending and a cursor ahead of the
sink. -/
def interruptedPendingState : ServiceState :=
  { postSetupState with
      isConnected := true,
      scheduledSources := [7, 8],
      nextStartTime := 9,
      currentOutputTranscription := "hal" }

/-- A `ServerContent` carrying a transcription fragment together with a
turn-complete signal. -/
def splitContent : ServerContent :=
  { interrupted := false, modelTurnParts := none,
    inputTranscriptionText := some " world", outputTranscriptionText := none,
    turnComplete := true }

/-! ## Helper lemmas -/

/-- A payload that fails to decode is caught and skipped: `queueAudioOutput`
leaves the state unchanged and schedules nothing. -/
theorem queueAudioOutput_decodeFail (s : ServiceState) (now : ℚ)
    (bytes : List Nat) (srcId : Nat) (hodd : bytes.length % 2 ≠ 0) :
    queueAudioOutput s now bytes srcId = (s, none) := by
  simp [queueAudioOutput, decodeAudioData, hodd]

/-- Feeding a payload sequence through the scheduler is the same as feeding
only its decodable payloads: skipped chunks change nothing and consume no
source id. -/
theorem queueAudioSeq_filter (s : ServiceState) (idStart : Nat)
    (chunks : List (ℚ × List Nat)) :
    queueAudioSeq s idStart chunks
      = queueAudioSeq s idStart
          (chunks.filter fun p => p.2.length % 2 == 0) := by
  induction chunks generalizing s idStart with
  | nil => rfl
  | cons hd tl ih =>
    obtain ⟨now, bytes⟩ := hd
    by_cases heven : bytes.length % 2 = 0
    · have hf : ((now, bytes) :: tl).filter (fun p => p.2.length % 2 == 0)
          = (now, bytes) :: tl.filter (fun p => p.2.length % 2 == 0) := by
        simp [List.filter_cons, heven]
      rw [hf]
      simp only [queueAudioSeq]
      rcases hq : queueAudioOutput s now bytes idStart with ⟨s1, b⟩
      cases b <;> simp [ih]
    · have hf : ((now, bytes) :: tl).filter (fun p => p.2.length % 2 == 0)
          = tl.filter (fun p => p.2.length % 2 == 0) := by
        simp [List.filter_cons, heven]
      rw [hf]
      simp only [queueAudioSeq,
        queueAudioOutput_decodeFail s now bytes idStart heven]
      exact ih s idStart

/-! ## Claim theorems -/

/-- C10: an inbound audio payload arriving while the output audio context or
the output gain does not exist is a no-op: `queueAudioOutput` returns without
scheduling anything, and the cursor and scheduled set are unchanged. -/
theorem c10_enqueue_noop_without_sink (s : ServiceState) (now : ℚ)
    (bytes : List Nat) (srcId : Nat)
    (h : s.audioContext = false ∨ s.outputGain = false) :
    queueAudioOutput s now bytes srcId = (s, none) := by
  rcases h with h | h <;> simp [queueAudioOutput, h]

/-- Witness for C10 at the freshly constructed (pre-connect) state and a
concrete payload. -/
theorem c10_enqueue_noop_without_sink_witness :
    (baseState.audioContext = false ∨ baseState.outputGain = false)
    ∧ queueAudioOutput baseState 0 [1, 2] 0 = (baseState, none) :=
  ⟨Or.inl rfl, c10_enqueue_noop_without_sink baseState 0 [1, 2] 0 (Or.inl rfl)⟩

/-- C6: `disconnect` is idempotent and releases every resource from any
state: the microphone stream, both audio contexts and the session promise are
null, the scheduled set is empty, the cursor is reset to zero, and
`getOutputAnalyser` returns null. -/
theorem c6_disconnect_idempotent_releases (s : ServiceState) :
    disconnect (disconnect s) = disconnect s
    ∧ (disconnect s).stream = false
    ∧ (disconnect s).inputAudioContext = false
    ∧ (disconnect s).audioContext = false
    ∧ (disconnect s).scheduledSources = []
    ∧ (disconnect s).nextStartTime = 0
    ∧ (disconnect s).sessionPromise = false
    ∧ getOutputAnalyser (disconnect s) = false :=
  ⟨rfl, rfl, rfl, rfl, rfl, rfl, rfl, rfl⟩

/-- C8: a capture frame produced while `isConnected` is false is dropped
before encoding, and a frame whose transmission continuation runs after
`isConnected` has become false is never transmitted. -/
theorem c8_inactive_frames_dropped :
    (∀ (hasSession sessionResolves connAtSend : Bool) (frame : List ℚ),
        processCaptureFrame false hasSession sessionResolves connAtSend frame
          = (none, none))
    ∧ (∀ (connAtProduce hasSession sessionResolves : Bool) (frame : List ℚ),
        (processCaptureFrame connAtProduce hasSession sessionResolves false
          frame).2 = none) := by
  constructor
  · intro hs sr cs f
    simp [processCaptureFrame]
  · intro cp hs sr f
    by_cases h : cp = false ∨ hs = false <;> simp [processCaptureFrame, h]

/-- C2: handling a message that carries an interruption signal stops exactly
the sources that were scheduled, leaves the scheduled set empty, resets the
cursor to the sink's current time, clears the accumulated output
transcription, and emits no transcript. -/
theorem c2_interruption_flush (s : ServiceState) (now : ℚ) (sc : ServerContent)
    (idStart : Nat) (hint : sc.interrupted = true) (hctx : s.audioContext = true) :
    ((handleMessage s now ⟨some sc⟩ idStart).2.stopped = s.scheduledSources)
    ∧ ((handleMessage s now ⟨some sc⟩ idStart).1.scheduledSources = [])
    ∧ ((handleMessage s now ⟨some sc⟩ idStart).1.nextStartTime = now)
    ∧ ((handleMessage s now ⟨some sc⟩ idStart).1.currentOutputTranscription = "")
    ∧ ((handleMessage s now ⟨some sc⟩ idStart).2.transcripts = []) := by
  simp [handleMessage, stopAllScheduledAudio, hint, hctx]

/-- Witness for C2: two pending sources, a cursor at nine seconds and a
partial output transcription, flushed by an interrupted message at sink time
three. -/
theorem c2_interruption_flush_witness :
    (intAndTurnContent.interrupted = true)
    ∧ (interruptedPendingState.audioContext = true)
    ∧ ((handleMessage interruptedPendingState 3 ⟨some intAndTurnContent⟩ 0).2.stopped
        = [7, 8])
    ∧ ((handleMessage interruptedPendingState 3 ⟨some intAndTurnContent⟩ 0).1.nextStartTime
        = 3) :=
  ⟨rfl, rfl,
   (c2_interruption_flush interruptedPendingState 3 intAndTurnContent 0 rfl rfl).1,
   (c2_interruption_flush interruptedPendingState 3 intAndTurnContent 0 rfl rfl).2.2.1⟩

/-- C3 counterexample: with a whitespace-only accumulated input transcription,
a turn-complete message emits nothing — and the buffer is NOT cleared
afterwards, contrary to the claim: it still holds the whitespace, so the next
fragment is appended to it. -/
theorem c3_whitespace_buffer_retained :
    (jsTrim "   " = "")
    ∧ ((handleMessage wsState 0 ⟨some (turnSignalOnly true)⟩ 0).2.transcripts = [])
    ∧ ((handleMessage wsState 0 ⟨some (turnSignalOnly true)⟩ 0).1.currentInputTranscription
        = "   ") := by
  refine ⟨by decide, by decide, by decide⟩

/-- C3 (amended): on a turn-complete message, each role whose accumulated
text is non-blank after trimming emits exactly one transcript callback
carrying the full accumulated text (user first, then model) and its buffer is
cleared; a role whose accumulated text is empty or whitespace-only emits
nothing and its buffer is left unchanged. -/
theorem c3_turn_complete_flush (s : ServiceState) (now : ℚ) (idStart : Nat) :
    ((handleMessage s now ⟨some (turnSignalOnly true)⟩ idStart).2.transcripts
        = (if jsTrim s.currentInputTranscription ≠ ""
             then [(s.currentInputTranscription, Role.user)] else [])
          ++ (if jsTrim s.currentOutputTranscription ≠ ""
                then [(s.currentOutputTranscription, Role.model)] else []))
    ∧ ((handleMessage s now ⟨some (turnSignalOnly true)⟩ idStart).1.currentInputTranscription
        = if jsTrim s.currentInputTranscription ≠ ""
            then "" else s.currentInputTranscription)
    ∧ ((handleMessage s now ⟨some (turnSignalOnly true)⟩ idStart).1.currentOutputTranscription
        = if jsTrim s.currentOutputTranscription ≠ ""
            then "" else s.currentOutputTranscription) := by
  by_cases h1 : jsTrim s.currentInputTranscription = "" <;>
    by_cases h2 : jsTrim s.currentOutputTranscription = "" <;>
      simp [handleMessage, turnSignalOnly, audioPayloads, queueAudioSeq,
        appendTranscriptions, flushTurns, h1, h2]

/-- C5 counterexample: a message carrying both an interruption signal and a
turn-complete signal emits no transcript, although the same state handling a
message with only the turn-complete signal emits one — the interruption
suppresses the other events of the same message. -/
theorem c5_interruption_suppresses_other_events :
    ((handleMessage helloState 0 ⟨some intAndTurnContent⟩ 0).2.transcripts = [])
    ∧ ((handleMessage helloState 0 ⟨some (turnSignalOnly true)⟩ 0).2.transcripts
        = [("Hello", Role.user)]) :=
  ⟨by decide, by decide⟩

/-- C5 (amended): within a message that carries no interruption signal, the
audio payloads, transcription fragments and turn-complete signal are handled
independently: handling the message equals handling the same message without
its turn-complete flag and then a message carrying only that flag, with the
effects concatenated. -/
theorem c5_message_events_split (s : ServiceState) (now : ℚ) (sc : ServerContent)
    (idStart : Nat) (h : sc.interrupted = false) :
    handleMessage s now ⟨some sc⟩ idStart
      = (let r1 := handleMessage s now ⟨some { sc with turnComplete := false }⟩ idStart
         let r2 := handleMessage r1.1 now ⟨some (turnSignalOnly sc.turnComplete)⟩ idStart
         (r2.1,
          { stopped := r1.2.stopped ++ r2.2.stopped,
            scheduled := r1.2.scheduled ++ r2.2.scheduled,
            transcripts := r1.2.transcripts ++ r2.2.transcripts })) := by
  obtain ⟨i, mt, it, ot, tc⟩ := sc
  have h2 : i = false := h
  subst h2
  simp [handleMessage, turnSignalOnly, audioPayloads, queueAudioSeq,
    appendTranscriptions, flushTurns]

/-- Witness for C5 at a concrete state and message carrying a fragment and a
turn-complete flag. -/
theorem c5_message_events_split_witness :
    (splitContent.interrupted = false)
    ∧ (handleMessage helloState 0 ⟨some splitContent⟩ 0
        = (let r1 := handleMessage helloState 0
             ⟨some { splitContent with turnComplete := false }⟩ 0
           let r2 := handleMessage r1.1 0
             ⟨some (turnSignalOnly splitContent.turnComplete)⟩ 0
           (r2.1,
            { stopped := r1.2.stopped ++ r2.2.stopped,
              scheduled := r1.2.scheduled ++ r2.2.scheduled,
              transcripts := r1.2.transcripts ++ r2.2.transcripts }))) :=
  ⟨rfl, c5_message_events_split helloState 0 splitContent 0 rfl⟩

/-- C4 counterexample: when the rejected connection promise is handled first
and the transport's error callback fires afterwards for the same failure,
`onError` and `cleanup` each run twice, not once. -/
theorem c4_double_notification :
    (connectFailureRun (postSetupState, { onErrorCount := 0, cleanupCount := 0 })
        [ConnectFailureEvent.promiseRejected, ConnectFailureEvent.errorCallback]).2
      = { onErrorCount := 2, cleanupCount := 2 } := by
  decide

/-- C4 (amended): from a state whose input audio context exists, `onError`
and `cleanup` run exactly once when the failure is delivered through the
error callback alone, the rejected promise alone, or the error callback
followed by the rejection (the rejection handler is gated on the input audio
context, which cleanup nulls); only the rejection-then-error-callback order
runs them twice. -/
theorem c4_notification_counts (s : ServiceState)
    (h : s.inputAudioContext = true) :
    ((connectFailureRun (s, { onErrorCount := 0, cleanupCount := 0 })
        [ConnectFailureEvent.errorCallback]).2
      = { onErrorCount := 1, cleanupCount := 1 })
    ∧ ((connectFailureRun (s, { onErrorCount := 0, cleanupCount := 0 })
        [ConnectFailureEvent.promiseRejected]).2
      = { onErrorCount := 1, cleanupCount := 1 })
    ∧ ((connectFailureRun (s, { onErrorCount := 0, cleanupCount := 0 })
        [ConnectFailureEvent.errorCallback, ConnectFailureEvent.promiseRejected]).2
      = { onErrorCount := 1, cleanupCount := 1 })
    ∧ ((connectFailureRun (s, { onErrorCount := 0, cleanupCount := 0 })
        [ConnectFailureEvent.promiseRejected, ConnectFailureEvent.errorCallback]).2
      = { onErrorCount := 2, cleanupCount := 2 }) := by
  refine ⟨?_, ?_, ?_, ?_⟩ <;>
    simp [connectFailureRun, connectFailureStep, cleanup, h, List.foldl]

/-- Witness for C4 at the post-setup state. -/
theorem c4_notification_counts_witness :
    (postSetupState.inputAudioContext = true)
    ∧ ((connectFailureRun (postSetupState, { onErrorCount := 0, cleanupCount := 0 })
          [ConnectFailureEvent.errorCallback]).2
        = { onErrorCount := 1, cleanupCount := 1 }) :=
  ⟨rfl, (c4_notification_counts postSetupState rfl).1⟩

/-- C7 counterexample: during an active session with the cursor at five
seconds and the sink at two, the interruption flush moves the cursor backward
to two — an active-session operation that decreases the cursor. -/
theorem c7_interruption_moves_cursor_back :
    ((stopAllScheduledAudio
        { activeOutputState with nextStartTime := 5 } 2).1.nextStartTime = 2)
    ∧ ((2 : ℚ) < ({ activeOutputState with nextStartTime := 5 } : ServiceState).nextStartTime) := by
  refine ⟨by simp [stopAllScheduledAudio, activeOutputState, postSetupState],
    by norm_num [activeOutputState, postSetupState]⟩

/-- C7 (amended): enqueueing a payload never moves the cursor backward — it
either leaves it, snaps it forward to the sink time, or advances it by the
decoded duration — while the interruption flush resets the cursor to the
sink's current time whenever the output context exists, which can move it
backward. -/
theorem c7_cursor_evolution :
    (∀ (s : ServiceState) (now : ℚ) (bytes : List Nat) (srcId : Nat),
        s.nextStartTime ≤ (queueAudioOutput s now bytes srcId).1.nextStartTime)
    ∧ (∀ (s : ServiceState) (now : ℚ),
        (stopAllScheduledAudio s now).1.nextStartTime
          = if s.audioContext = true then now else s.nextStartTime) := by
  constructor
  · intro s now bytes srcId
    by_cases hg : s.audioContext = false ∨ s.outputGain = false
    · simp [queueAudioOutput, hg]
    · rcases hdec : decodeAudioData bytes AUDIO_CONFIG.OUTPUT_SAMPLE_RATE
        with _ | dur
      · simp [queueAudioOutput, hg, hdec]
      · have hdur : 0 ≤ dur := by
          unfold decodeAudioData at hdec
          by_cases he : bytes.length % 2 = 0
          · rw [if_pos he, Option.some.injEq] at hdec
            rw [← hdec]
            have h24 : (0 : ℚ) < AUDIO_CONFIG.OUTPUT_SAMPLE_RATE := by
              norm_num [AUDIO_CONFIG]
            exact div_nonneg (Nat.cast_nonneg _) (le_of_lt h24)
          · rw [if_neg he] at hdec
            exact absurd hdec (by simp)
        have hrw : (queueAudioOutput s now bytes srcId).1.nextStartTime
            = (if s.nextStartTime < now then now else s.nextStartTime) + dur := by
          simp [queueAudioOutput, hg, hdec]
        rw [hrw]
        by_cases hlt : s.nextStartTime < now
        · rw [if_pos hlt]
          linarith
        · rw [if_neg hlt]
          linarith
  · intro s now
    by_cases hc : s.audioContext = true <;> simp [stopAllScheduledAudio, hc]

/-- C9: a payload that fails to decode is contained locally — it leaves the
whole service state unchanged and schedules nothing — and feeding a payload
sequence through the scheduler equals feeding only its decodable payloads, so
subsequent valid payloads are scheduled exactly as if the bad chunk had never
arrived. -/
theorem c9_decode_failure_contained :
    (∀ (s : ServiceState) (now : ℚ) (bytes : List Nat) (srcId : Nat),
        bytes.length % 2 ≠ 0 → queueAudioOutput s now bytes srcId = (s, none))
    ∧ (∀ (s : ServiceState) (idStart : Nat) (chunks : List (ℚ × List Nat)),
        queueAudioSeq s idStart chunks
          = queueAudioSeq s idStart
              (chunks.filter fun p => p.2.length % 2 == 0)) :=
  ⟨queueAudioOutput_decodeFail, queueAudioSeq_filter⟩

/-- Witness for C9: a one-byte (truncated) payload at the post-setup state. -/
theorem c9_decode_failure_contained_witness :
    (([0] : List Nat).length % 2 ≠ 0)
    ∧ queueAudioOutput postSetupState 0 [0] 0 = (postSetupState, none) :=
  ⟨by decide, c9_decode_failure_contained.1 postSetupState 0 [0] 0 (by decide)⟩

/-- C1: under no starvation, with the output pipeline present and every
payload decodable, the scheduled start times are exactly the cursor's initial
value followed by the running sums of the durations, the scheduled durations
are the decoded durations in arrival order, and the final cursor has advanced
by exactly the total duration. -/
theorem c1_contiguous_scheduling (s : ServiceState) (idStart : Nat)
    (chunks : List (ℚ × List Nat))
    (hctx : s.audioContext = true) (hg : s.outputGain = true)
    (hdec : ∀ p ∈ chunks, p.2.length % 2 = 0)
    (hns : noStarvation s.nextStartTime
        (chunks.map fun p => (p.1, chunkDuration p.2)) = true) :
    ((queueAudioSeq s idStart chunks).2.map ScheduledBuffer.startTime
        = startsFrom s.nextStartTime (chunks.map fun p => chunkDuration p.2))
    ∧ ((queueAudioSeq s idStart chunks).2.map ScheduledBuffer.duration
        = chunks.map fun p => chunkDuration p.2)
    ∧ ((queueAudioSeq s idStart chunks).1.nextStartTime
        = s.nextStartTime + (chunks.map fun p => chunkDuration p.2).sum) := by
  induction chunks generalizing s idStart with
  | nil => simp [queueAudioSeq, startsFrom]
  | cons hd tl ih =>
    obtain ⟨now, bytes⟩ := hd
    have heven : bytes.length % 2 = 0 := hdec (now, bytes) (by simp)
    have hdtl : ∀ p ∈ tl, p.2.length % 2 = 0 := fun p hp => hdec p (by simp [hp])
    simp only [List.map_cons, noStarvation, Bool.and_eq_true,
      decide_eq_true_eq] at hns
    obtain ⟨hle, hns2⟩ := hns
    have hnotlt : ¬ s.nextStartTime < now := not_lt.mpr hle
    have hq : queueAudioOutput s now bytes idStart
        = ({ s with
              nextStartTime := s.nextStartTime + chunkDuration bytes,
              scheduledSources := s.scheduledSources ++ [idStart] },
           some { sourceId := idStart, startTime := s.nextStartTime,
                  duration := chunkDuration bytes }) := by
      simp [queueAudioOutput, decodeAudioData, heven, hctx, hg, hnotlt,
        chunkDuration]
    obtain ⟨ih1, ih2, ih3⟩ := ih
      ({ s with
          nextStartTime := s.nextStartTime + chunkDuration bytes,
          scheduledSources := s.scheduledSources ++ [idStart] })
      (idStart + 1) hctx hg hdtl hns2
    refine ⟨?_, ?_, ?_⟩ <;>
      simp only [queueAudioSeq, hq, List.map_cons, startsFrom, List.sum_cons]
    · simpa using ih1
    · simpa using ih2
    · rw [show ((queueAudioSeq
          ({ s with
              nextStartTime := s.nextStartTime + chunkDuration bytes,
              scheduledSources := s.scheduledSources ++ [idStart] })
          (idStart + 1) tl).1.nextStartTime
            = s.nextStartTime + chunkDuration bytes
              + (tl.map fun p => chunkDuration p.2).sum) from ih3]
      ring

/-- Witness for C1: two decodable payloads (one and two samples) arriving
without starvation at an active output pipeline whose cursor is at one
second. -/
theorem c1_contiguous_scheduling_witness :
    (activeOutputState.audioContext = true)
    ∧ (activeOutputState.outputGain = true)
    ∧ (∀ p ∈ [((0 : ℚ), [0, 0]), ((1 : ℚ), [0, 0, 0, 0])],
        (p.2 : List Nat).length % 2 = 0)
    ∧ (noStarvation activeOutputState.nextStartTime
        ([((0 : ℚ), [0, 0]), ((1 : ℚ), [0, 0, 0, 0])].map
          fun p => (p.1, chunkDuration p.2)) = true)
    ∧ ((queueAudioSeq activeOutputState 0
          [((0 : ℚ), [0, 0]), ((1 : ℚ), [0, 0, 0, 0])]).2.map
            ScheduledBuffer.startTime
        = startsFrom activeOutputState.nextStartTime
            ([((0 : ℚ), [0, 0]), ((1 : ℚ), [0, 0, 0, 0])].map
              fun p => chunkDuration p.2)) :=
  ⟨rfl, rfl, by decide,
   by
     simp only [noStarvation, List.map_cons, List.map_nil, Bool.and_eq_true,
       decide_eq_true_eq]
     norm_num [chunkDuration, AUDIO_CONFIG, activeOutputState, postSetupState],
   (c1_contiguous_scheduling activeOutputState 0
      [((0 : ℚ), [0, 0]), ((1 : ℚ), [0, 0, 0, 0])]
      rfl rfl (by decide)
      (by
        simp only [noStarvation, List.map_cons, List.map_nil, Bool.and_eq_true,
          decide_eq_true_eq]
        norm_num [chunkDuration, AUDIO_CONFIG, activeOutputState,
          postSetupState])).1⟩

end GeminiLive
